import Mathlib

/-!
Presence/activity subsystem of the Blog-Management repository: a shallow
embedding.

This file embeds, in Lean, the presence-tracking core of the repository:

* the Socket.IO connection handler of the server entry point
  (`io.on('connection')` in `server.js`): connect registration, the
  `user_activity` heartbeat, and the `disconnect` handler;
* the client-side `SocketService` (`socketService.ts`): `connect`,
  `disconnect`, the transport `disconnect`/`connect_error` listeners and
  `attemptReconnect` with exponential backoff;
* the HTTP user controller (`userController.js`): `setUserOffline`
  (`PUT /api/users/:id/offline`) and `updateUserActivity`
  (`PUT /api/users/activity/:id`).

Mongoose's `User.findByIdAndUpdate` is modelled over an association list of
user records; Socket.IO's transport bookkeeping (which sockets are open) is
modelled as an explicit list of `(connectionId, userId)` pairs carried in the
server state, since the repository itself keeps no registry. Timestamps are
naturals supplied by the environment at each event.
-/

/-- A persisted user-directory record (the fields of the Mongoose `User`
model that the presence subsystem reads or writes, plus `subscriptionPlan`
as a representative field the subsystem never touches). -/
structure UserRec where
  id : String
  name : String
  email : String
  role : String
  subscriptionPlan : String
  isOnline : Bool
  lastActive : Nat
deriving Repr, DecidableEq

/-- The user directory: the persisted collection of user records. -/
abbrev Directory := List UserRec

/-- `User.findById`: first record with the given id, if any. -/
def findUser (users : Directory) (uid : String) : Option UserRec :=
  users.find? (fun u => u.id = uid)

/-- Apply `f` to the record with the given id, leaving all others alone
(the update half of `User.findByIdAndUpdate`). An unknown id updates
nothing, matching Mongoose returning `null` without error. -/
def updateById (users : Directory) (uid : String) (f : UserRec → UserRec) :
    Directory :=
  users.map (fun u => if u.id = uid then f u else u)

/-- `User.findByIdAndUpdate(uid, f, {new: true})`: the updated directory
together with the post-update record (`none` when the id is unknown). -/
def findByIdAndUpdate (users : Directory) (uid : String) (f : UserRec → UserRec) :
    Directory × Option UserRec :=
  let users' := updateById users uid f
  (users', findUser users' uid)

/-- Payload of a `user_status_change` broadcast (`io.emit` in `server.js`). -/
structure StatusEvent where
  userId : String
  name : String
  email : String
  isOnline : Bool
  lastActive : Nat
  role : String
deriving Repr, DecidableEq

/-- Server-side state: the persisted directory, the set of open Socket.IO
connections `(connectionId, owner userId)` as maintained by the transport
(the application code keeps no registry of its own), and the log of
`user_status_change` broadcasts emitted so far. -/
structure ServerState where
  users : Directory
  conns : List (String × String)
  broadcasts : List StatusEvent
deriving Repr, DecidableEq

/-- Number of live connections the transport currently holds for `uid`. -/
def liveCount (st : ServerState) (uid : String) : Nat :=
  (st.conns.filter (fun c => c.2 = uid)).length

/-- Owner of an open connection, if the connection is live. -/
def connOwner (st : ServerState) (connId : String) : Option String :=
  (st.conns.find? (fun c => c.1 = connId)).map (fun c => c.2)

/-- The `io.on('connection')` handler body in `server.js`. A missing
`userId` query parameter, or one that resolves to no user, makes the server
call `socket.disconnect()` before the connection is registered anywhere, so
the state is unchanged and the connection never becomes live. Otherwise the
code unconditionally persists `{isOnline: true, lastActive: now}` and emits
a `user_status_change` broadcast built from the updated record. -/
def handleConnect (st : ServerState) (connId : String) (userId : Option String)
    (now : Nat) : ServerState :=
  match userId with
  | none => st
  | some uid =>
    let r := findByIdAndUpdate st.users uid
      (fun u => { u with isOnline := true, lastActive := now })
    match r.2 with
    | none => st
    | some u =>
      { users := r.1
        conns := (connId, uid) :: st.conns
        broadcasts := st.broadcasts ++
          [⟨uid, u.name, u.email, true, u.lastActive, u.role⟩] }

/-- The `socket.on('user_activity')` heartbeat handler. It exists only on
sockets that completed registration, so an unknown or already-removed
connection id is a no-op; otherwise it runs
`User.findByIdAndUpdate(userId, { lastActive: new Date() })`, ignoring the
result, inside a try/catch that swallows every error. No broadcast. -/
def handleHeartbeat (st : ServerState) (connId : String) (now : Nat) :
    ServerState :=
  match connOwner st connId with
  | none => st
  | some uid =>
    { st with users := updateById st.users uid (fun u => { u with lastActive := now }) }

/-- The `socket.on('disconnect')` handler. The transport drops the
connection; the code then unconditionally persists
`{isOnline: false, lastActive: now}` and, when the user still resolves,
broadcasts `user_status_change` with `isOnline: false`. -/
def handleDisconnect (st : ServerState) (connId : String) (now : Nat) :
    ServerState :=
  match connOwner st connId with
  | none => st
  | some uid =>
    let conns' := st.conns.filter (fun c => ¬ c.1 = connId)
    let r := findByIdAndUpdate st.users uid
      (fun u => { u with isOnline := false, lastActive := now })
    match r.2 with
    | none => { st with conns := conns' }
    | some u =>
      { users := r.1
        conns := conns'
        broadcasts := st.broadcasts ++
          [⟨uid, u.name, u.email, false, u.lastActive, u.role⟩] }

/-- Events the server reacts to, each carrying the wall-clock instant at
which `new Date()` is read. -/
inductive SrvEvent
  | connect (connId : String) (userId : Option String) (now : Nat)
  | heartbeat (connId : String) (now : Nat)
  | disconnect (connId : String) (now : Nat)
deriving Repr, DecidableEq

/-- One server step. -/
def srvStep (st : ServerState) : SrvEvent → ServerState
  | .connect c u n => handleConnect st c u n
  | .heartbeat c n => handleHeartbeat st c n
  | .disconnect c n => handleDisconnect st c n

/-- Run the server over a sequence of events. -/
def srvRun (st : ServerState) (es : List SrvEvent) : ServerState :=
  es.foldl srvStep st

/-- A sample directory holding the single user `A`, initially offline. -/
def dirA : Directory :=
  [⟨"A", "Alice", "a@x.io", "customer", "Basic", false, 0⟩]

/-- Initial server state over `dirA`: no connections, no broadcasts. -/
def st0 : ServerState := ⟨dirA, [], []⟩

/-- Two tabs of user `A` connect, then the first tab closes. -/
def twoTabsOneClose : List SrvEvent :=
  [.connect "c1" (some "A") 1, .connect "c2" (some "A") 2, .disconnect "c1" 3]

/-- C1: the spec requires `isOnline` to track "live-connection count
> 0": with two live connections open, closing one must leave `isOnline`
true. The code has no connection registry — its `disconnect` handler
unconditionally persists `isOnline:false` — so after
connect(c1,A), connect(c2,A), disconnect(c1) one live connection remains
for `A` while the persisted flag already reads false. -/
theorem c1_isOnline_not_tracking_live_count :
    liveCount (srvRun st0 twoTabsOneClose) "A" = 1 ∧
    (findUser (srvRun st0 twoTabsOneClose).users "A").map UserRec.isOnline
      = some false := by
  decide

/-- C2: the spec requires one broadcast per aggregate transition: a
second connection for an already-online user must emit nothing, and closing
one of two connections must emit nothing. The code broadcasts on every
connect and every disconnect: after the sequence
connect(c1,A), connect(c2,A), disconnect(c1) three broadcasts were emitted
(two with `isOnline:true`, then one with `isOnline:false` while a live
connection remains), where the claim allows exactly one. -/
theorem c2_broadcast_on_every_event :
    ((srvRun st0 twoTabsOneClose).broadcasts).map StatusEvent.isOnline
      = [true, true, false] ∧
    liveCount (srvRun st0 twoTabsOneClose) "A" = 1 := by
  decide

/-- Erase the `lastActive` field, for stating that an operation changes a
record in no other field. -/
def stripLast (u : UserRec) : UserRec := { u with lastActive := 0 }

/-- An update touching only `lastActive` is invisible after `stripLast`. -/
theorem stripLast_updateById_lastActive (users : Directory) (uid : String)
    (now : Nat) :
    (updateById users uid (fun u => { u with lastActive := now })).map stripLast
      = users.map stripLast := by
  simp only [updateById, List.map_map]
  have h : stripLast ∘ (fun u => if u.id = uid then { u with lastActive := now } else u)
      = stripLast := by
    funext u
    by_cases h : u.id = uid <;> simp [stripLast, h]
  rw [h]

/-- C6: the `user_activity` heartbeat emits no broadcast, removes or adds no
connection, and changes no persisted field other than `lastActive`; on an
unknown or already-removed connection it is a complete no-op. (It never
throws: the handler body is total here, matching the try/catch in the
source that swallows every error.) -/
theorem c6_heartbeat_frame (st : ServerState) (connId : String) (now : Nat) :
    (handleHeartbeat st connId now).broadcasts = st.broadcasts ∧
    (handleHeartbeat st connId now).conns = st.conns ∧
    ((handleHeartbeat st connId now).users).map stripLast
      = st.users.map stripLast ∧
    (connOwner st connId = none → handleHeartbeat st connId now = st) := by
  unfold handleHeartbeat
  cases h : connOwner st connId with
  | none => simp
  | some uid => simp [stripLast_updateById_lastActive]

/-- C6 witness: a concrete heartbeat on the removed connection `c9` leaves
the initial state untouched. -/
theorem c6_heartbeat_frame_witness : handleHeartbeat st0 "c9" 5 = st0 :=
  (c6_heartbeat_frame st0 "c9" 5).2.2.2 (by decide)

/-- Client-side state of the `SocketService` singleton in
`socketService.ts`. `socketExists` models `this.socket !== null`,
`connected` models `this.socket.connected`, `timers` records the delays of
`setTimeout` reconnect callbacks still pending (the source keeps no handle
to them, so they cannot be cleared), and `opens` counts how many transport
connections `io(...)` has opened. -/
structure ClientState where
  socketExists : Bool
  connected : Bool
  userId : Option String
  reconnectAttempts : Nat
  timers : List Nat
  opens : Nat
deriving Repr, DecidableEq

/-- `maxReconnectAttempts = 5` in `socketService.ts`. -/
def maxReconnectAttempts : Nat := 5

/-- `reconnectDelay = 1000` milliseconds in `socketService.ts`. -/
def reconnectDelay : Nat := 1000

namespace SocketService

/-- `connect(userId)`: an early return when a socket exists and is
connected (regardless of which user it carries); otherwise store the
userId, open a fresh transport (`io(...)`, counted in `opens`), and wait
for the `connect` event. -/
def connect (uid : String) (s : ClientState) : ClientState :=
  if s.socketExists ∧ s.connected then s
  else { s with userId := some uid, socketExists := true, connected := false,
                opens := s.opens + 1 }

/-- The `socket.on('connect')` listener: mark connected, reset the
reconnect-attempt counter to 0. -/
def onConnectSuccess (s : ClientState) : ClientState :=
  { s with connected := true, reconnectAttempts := 0 }

/-- `attemptReconnect()`: bail out once the counter has reached
`maxReconnectAttempts`; otherwise increment it and schedule a timer with
delay `reconnectDelay * 2 ^ (attempts - 1)`. -/
def attemptReconnect (s : ClientState) : ClientState :=
  if maxReconnectAttempts ≤ s.reconnectAttempts then s
  else
    let a := s.reconnectAttempts + 1
    { s with reconnectAttempts := a,
             timers := s.timers ++ [reconnectDelay * 2 ^ (a - 1)] }

/-- The `socket.on('disconnect')` listener. The transport has already
dropped the link (`connected := false`); the handler calls
`attemptReconnect` only when the reason is not the user-initiated
`io client disconnect` and the counter is below the maximum. -/
def onDisconnectEvent (reason : String) (s : ClientState) : ClientState :=
  let s' := { s with connected := false }
  if ¬ reason = "io client disconnect" ∧
      s.reconnectAttempts < maxReconnectAttempts then
    attemptReconnect s'
  else s'

/-- The `socket.on('connect_error')` listener: always calls
`attemptReconnect` (which itself enforces the cap). -/
def onConnectError (s : ClientState) : ClientState :=
  attemptReconnect s

/-- `disconnect()`: when a socket exists, close it and clear
`socket`, `userId` and the attempt counter; otherwise do nothing. The
pending `setTimeout` callbacks are not (and cannot be) cleared. -/
def disconnect (s : ClientState) : ClientState :=
  if s.socketExists then
    { s with socketExists := false, connected := false, userId := none,
             reconnectAttempts := 0 }
  else s

/-- A pending reconnect timer fires: the callback re-calls `connect` only
when `this.userId` is still set. The fired timer leaves the pending list. -/
def fireTimer (s : ClientState) : ClientState :=
  match s.userId with
  | some uid => connect uid { s with timers := s.timers.tail }
  | none => { s with timers := s.timers.tail }

end SocketService

/-- A client state whose reconnect counter already reached the maximum. -/
def cMax : ClientState := ⟨true, true, some "u", 5, [], 1⟩

/-- A connected client state, two reconnect attempts already made. -/
def cW3 : ClientState := ⟨true, false, some "u", 2, [], 1⟩

/-- A connected client state carrying user `u1`. -/
def sConn : ClientState := ⟨true, true, some "u1", 0, [], 1⟩

/-- C5: on attempt `n` (for `1 ≤ n ≤ 5`) `attemptReconnect` schedules
exactly one timer with delay `1000 * 2 ^ (n - 1)` and sets the counter to
`n`; once the counter has reached the maximum, `attemptReconnect` is the
identity and neither the `disconnect` listener nor the `connect_error`
listener schedules any further timer. -/
theorem c5_backoff_schedule :
    (∀ (s : ClientState) (n : Nat), 1 ≤ n → n ≤ maxReconnectAttempts →
      s.reconnectAttempts = n - 1 →
      SocketService.attemptReconnect s
        = { s with reconnectAttempts := n,
                   timers := s.timers ++ [reconnectDelay * 2 ^ (n - 1)] }) ∧
    (∀ (s : ClientState) (reason : String),
      maxReconnectAttempts ≤ s.reconnectAttempts →
      SocketService.attemptReconnect s = s ∧
      (SocketService.onDisconnectEvent reason s).timers = s.timers ∧
      (SocketService.onConnectError s).timers = s.timers) := by
  constructor
  · intro s n h1 h5 ha
    have hlt : ¬ maxReconnectAttempts ≤ s.reconnectAttempts := by
      simp only [maxReconnectAttempts] at h5 ⊢; omega
    have hn : s.reconnectAttempts + 1 = n := by omega
    simp only [SocketService.attemptReconnect, hlt, if_false, hn]
  · intro s reason h
    have hlt : ¬ s.reconnectAttempts < maxReconnectAttempts := by omega
    refine ⟨by simp [SocketService.attemptReconnect, h], ?_, ?_⟩
    · simp [SocketService.onDisconnectEvent, hlt]
    · simp [SocketService.onConnectError, SocketService.attemptReconnect, h]

/-- C5 witness: from two prior attempts, the third attempt is scheduled at
delay `1000 * 2 ^ 2`; from five prior attempts nothing more is scheduled. -/
theorem c5_backoff_schedule_witness :
    SocketService.attemptReconnect cW3
      = { cW3 with reconnectAttempts := 3,
                   timers := cW3.timers ++ [reconnectDelay * 2 ^ (3 - 1)] } ∧
    SocketService.attemptReconnect cMax = cMax :=
  ⟨c5_backoff_schedule.1 cW3 3 (by decide) (by decide) (by decide),
   (c5_backoff_schedule.2 cMax "x" (by decide)).1⟩

/-- C7 counterexample: a disconnect whose reason is the non-user-initiated
`transport close`, arriving when the counter already reached the maximum,
schedules no reconnect attempt — refuting "for every other disconnect cause
it schedules a reconnect attempt". -/
theorem c7_counterexample :
    ¬ "transport close" = "io client disconnect" ∧
    cMax.timers = [] ∧
    (SocketService.onDisconnectEvent "transport close" cMax).timers = [] := by
  decide

/-- C7 (amended): a user-initiated disconnect only clears `connected` and
never schedules a reconnect; any other cause schedules exactly one
reconnect attempt provided the attempt counter is below the maximum, and
schedules nothing once the counter has reached the maximum. -/
theorem c7_disconnect_reconnect_policy :
    (∀ s : ClientState,
      SocketService.onDisconnectEvent "io client disconnect" s
        = { s with connected := false }) ∧
    (∀ (s : ClientState) (reason : String),
      ¬ reason = "io client disconnect" →
      s.reconnectAttempts < maxReconnectAttempts →
      SocketService.onDisconnectEvent reason s
        = { s with connected := false,
                   reconnectAttempts := s.reconnectAttempts + 1,
                   timers := s.timers ++
                     [reconnectDelay * 2 ^ s.reconnectAttempts] }) ∧
    (∀ (s : ClientState) (reason : String),
      maxReconnectAttempts ≤ s.reconnectAttempts →
      (SocketService.onDisconnectEvent reason s).timers = s.timers) := by
  refine ⟨?_, ?_, ?_⟩
  · intro s
    simp [SocketService.onDisconnectEvent]
  · intro s reason hr hlt
    have h5 : ¬ maxReconnectAttempts ≤ s.reconnectAttempts := by omega
    simp [SocketService.onDisconnectEvent, SocketService.attemptReconnect,
      hr, hlt, h5]
  · intro s reason h
    have hlt : ¬ s.reconnectAttempts < maxReconnectAttempts := by omega
    simp [SocketService.onDisconnectEvent, hlt]

/-- C7 witness: concrete instances of all three branches of the amended
disconnect policy. -/
theorem c7_disconnect_reconnect_policy_witness :
    SocketService.onDisconnectEvent "io client disconnect" sConn
      = { sConn with connected := false } ∧
    SocketService.onDisconnectEvent "transport close" cW3
      = { cW3 with connected := false,
                   reconnectAttempts := cW3.reconnectAttempts + 1,
                   timers := cW3.timers ++
                     [reconnectDelay * 2 ^ cW3.reconnectAttempts] } ∧
    (SocketService.onDisconnectEvent "transport close" cMax).timers
      = cMax.timers :=
  ⟨c7_disconnect_reconnect_policy.1 sConn,
   c7_disconnect_reconnect_policy.2.1 cW3 "transport close" (by decide) (by decide),
   c7_disconnect_reconnect_policy.2.2 cMax "transport close" (by decide)⟩

/-- C8 counterexample: with a connection already open for `u1`, calling
`connect("u2")` leaves the state completely unchanged — the stored userId
is still `u1` and no new transport connection was opened — refuting
"replaces the existing connection". -/
theorem c8_counterexample :
    SocketService.connect "u2" sConn = sConn ∧
    sConn.userId = some "u1" ∧
    (SocketService.connect "u2" sConn).opens = sConn.opens := by
  decide

/-- C8 (amended): `connect(uid)` called while a socket exists and is
connected is a no-op for every uid — the existing connection is kept, no
disconnect happens and no new connection is opened. -/
theorem c8_connect_noop_when_connected (s : ClientState) (uid : String)
    (h1 : s.socketExists = true) (h2 : s.connected = true) :
    SocketService.connect uid s = s := by
  simp [SocketService.connect, h1, h2]

/-- C8 witness: a concrete connected state is untouched by `connect`. -/
theorem c8_connect_noop_when_connected_witness :
    SocketService.connect "b" ⟨true, true, some "a", 3, [2000], 7⟩
      = ⟨true, true, some "a", 3, [2000], 7⟩ :=
  c8_connect_noop_when_connected ⟨true, true, some "a", 3, [2000], 7⟩ "b"
    (by decide) (by decide)

/-- C9: calling `disconnect()` before a pending reconnect timer fires makes
the timer's later firing harmless: `disconnect` clears `userId`, the
callback's guard then fails, so no new transport connection is opened (the
firing only removes the timer from the pending list). The hypothesis rules
out the unreachable state "no socket but a stored userId". -/
theorem c9_fired_timer_after_disconnect_opens_nothing (s : ClientState)
    (h : s.socketExists = true ∨ s.userId = none) :
    (SocketService.fireTimer (SocketService.disconnect s)).opens
      = (SocketService.disconnect s).opens ∧
    SocketService.fireTimer (SocketService.disconnect s)
      = { SocketService.disconnect s with
            timers := (SocketService.disconnect s).timers.tail } := by
  by_cases hs : s.socketExists = true
  · simp [SocketService.disconnect, SocketService.fireTimer, hs]
  · have hu : s.userId = none := by
      cases h with
      | inl h' => exact absurd h' hs
      | inr h' => exact h'
    simp [SocketService.disconnect, SocketService.fireTimer, hs, hu]

/-- C9 witness: with a pending timer and an open socket, disconnecting and
then letting the timer fire opens no connection. -/
theorem c9_fired_timer_after_disconnect_opens_nothing_witness :
    (SocketService.fireTimer
        (SocketService.disconnect ⟨true, false, some "u", 2, [1000, 2000], 3⟩)).opens
      = (SocketService.disconnect ⟨true, false, some "u", 2, [1000, 2000], 3⟩).opens :=
  (c9_fired_timer_after_disconnect_opens_nothing
    ⟨true, false, some "u", 2, [1000, 2000], 3⟩ (Or.inl (by decide))).1

/-- Updating an id that resolves to no record leaves the directory alone. -/
theorem updateById_not_found (users : Directory) (uid : String)
    (f : UserRec → UserRec) (h : findUser users uid = none) :
    updateById users uid f = users := by
  induction users with
  | nil => rfl
  | cons u us ih =>
    by_cases hu : u.id = uid
    · rw [findUser, List.find?_cons_of_pos us (by simp [hu])] at h
      exact absurd h (by simp)
    · have h' : findUser us uid = none := by
        rwa [findUser, List.find?_cons_of_neg us (by simp [hu])] at h
      simp only [updateById, List.map_cons, if_neg hu]
      have := ih h'
      simp only [updateById] at this
      rw [this]

/-- Looking up the updated id after an id-preserving update returns the
updated record. -/
theorem findUser_updateById (users : Directory) (uid : String)
    (f : UserRec → UserRec) (hf : ∀ u, (f u).id = u.id) :
    findUser (updateById users uid f) uid = (findUser users uid).map f := by
  induction users with
  | nil => rfl
  | cons u us ih =>
    by_cases hu : u.id = uid
    · simp only [updateById, List.map_cons, if_pos hu]
      rw [findUser, List.find?_cons_of_pos _ (by simp [hf u, hu]),
          findUser, List.find?_cons_of_pos _ (by simp [hu])]
      rfl
    · simp only [updateById, List.map_cons, if_neg hu]
      rw [findUser, List.find?_cons_of_neg _ (by simp [hu]),
          findUser, List.find?_cons_of_neg _ (by simp [hu])]
      exact ih

/-- Two successive id-preserving updates of the same id compose. -/
theorem updateById_updateById (users : Directory) (uid : String)
    (f g : UserRec → UserRec) (hf : ∀ u, (f u).id = u.id) :
    updateById (updateById users uid f) uid g
      = updateById users uid (fun u => g (f u)) := by
  simp only [updateById, List.map_map]
  congr 1
  funext u
  by_cases hu : u.id = uid <;> simp [Function.comp, hu, hf u]

/-- The record update `{isOnline: false, lastActive: now}`. -/
def offlineUpd (now : Nat) (u : UserRec) : UserRec :=
  { u with isOnline := false, lastActive := now }

/-- The record update `{lastActive: now}`. -/
def activityUpd (now : Nat) (u : UserRec) : UserRec :=
  { u with lastActive := now }

/-- Responses of the user controller as seen by the HTTP layer. -/
inductive UserResp
  | forbidden
  | notFound
  | ok (userId name email : String) (isOnline : Bool) (lastActive : Nat)
       (role : String)
deriving Repr, DecidableEq

/-- The `setUserOffline` controller (`PUT /api/users/:id/offline`, after
`verifyToken`): `403` when the authenticated caller differs from the target
id; otherwise `findByIdAndUpdate(id, {isOnline:false, lastActive:now},
{new:true})`; `404` when that returns null; `200` echoing the updated
record otherwise. The controller module holds no reference to the
Socket.IO server, so its broadcast list is always empty. -/
def setUserOffline (authId targetId : String) (users : Directory)
    (now : Nat) : Directory × UserResp × List StatusEvent :=
  if authId = targetId then
    match findByIdAndUpdate users targetId (offlineUpd now) with
    | (users', none) => (users', .notFound, [])
    | (users', some u) =>
        (users', .ok u.id u.name u.email u.isOnline u.lastActive u.role, [])
  else (users, .forbidden, [])

/-- The `updateUserActivity` controller (`PUT /api/users/activity/:id`,
after `verifyToken`): it reads only `req.params.id`, never `req.user`, so
the authenticated caller's identity does not influence the outcome;
`findByIdAndUpdate(id, {lastActive:now}, {new:true})`, `404` on null,
`200` echoing the updated record otherwise. -/
def updateUserActivity (authId targetId : String) (users : Directory)
    (now : Nat) : Directory × UserResp :=
  match findByIdAndUpdate users targetId (activityUpd now) with
  | (users', none) => (users', .notFound)
  | (users', some u) =>
      (users', .ok u.id u.name u.email u.isOnline u.lastActive u.role)

/-- `offlineUpd` preserves the id. -/
theorem offlineUpd_id (now : Nat) (u : UserRec) : (offlineUpd now u).id = u.id :=
  rfl

/-- `activityUpd` preserves the id. -/
theorem activityUpd_id (now : Nat) (u : UserRec) :
    (activityUpd now u).id = u.id :=
  rfl

/-- Reduction of `setUserOffline` when the caller differs from the target. -/
theorem setUserOffline_forbidden (users : Directory) (a t : String)
    (now : Nat) (h : ¬ a = t) :
    setUserOffline a t users now = (users, .forbidden, []) := by
  simp [setUserOffline, h]

/-- Reduction of `setUserOffline` when the target id is unknown. -/
theorem setUserOffline_not_found (users : Directory) (t : String) (now : Nat)
    (h : findUser users t = none) :
    setUserOffline t t users now = (users, .notFound, []) := by
  have hup := updateById_not_found users t (offlineUpd now) h
  have hpair : findByIdAndUpdate users t (offlineUpd now) = (users, none) := by
    simp only [findByIdAndUpdate]
    rw [hup, h]
  simp [setUserOffline, hpair]

/-- Reduction of `setUserOffline` on a successful self-call. -/
theorem setUserOffline_found (users : Directory) (t : String) (now : Nat)
    (u : UserRec) (h : findUser users t = some u) :
    setUserOffline t t users now
      = (updateById users t (offlineUpd now),
         .ok u.id u.name u.email false now u.role, []) := by
  have hfind : findUser (updateById users t (offlineUpd now)) t
      = some (offlineUpd now u) := by
    rw [findUser_updateById users t _ (offlineUpd_id now), h]
    rfl
  have hpair : findByIdAndUpdate users t (offlineUpd now)
      = (updateById users t (offlineUpd now), some (offlineUpd now u)) := by
    simp only [findByIdAndUpdate]
    rw [hfind]
  simp [setUserOffline, hpair, offlineUpd]

/-- Reduction of `updateUserActivity` when the target id is unknown. -/
theorem updateUserActivity_not_found (users : Directory) (a t : String)
    (now : Nat) (h : findUser users t = none) :
    updateUserActivity a t users now = (users, .notFound) := by
  have hup := updateById_not_found users t (activityUpd now) h
  have hpair : findByIdAndUpdate users t (activityUpd now) = (users, none) := by
    simp only [findByIdAndUpdate]
    rw [hup, h]
  simp [updateUserActivity, hpair]

/-- Reduction of `updateUserActivity` when the target id resolves. -/
theorem updateUserActivity_found (users : Directory) (a t : String)
    (now : Nat) (u : UserRec) (h : findUser users t = some u) :
    updateUserActivity a t users now
      = (updateById users t (activityUpd now),
         .ok u.id u.name u.email u.isOnline now u.role) := by
  have hfind : findUser (updateById users t (activityUpd now)) t
      = some (activityUpd now u) := by
    rw [findUser_updateById users t _ (activityUpd_id now), h]
    rfl
  have hpair : findByIdAndUpdate users t (activityUpd now)
      = (updateById users t (activityUpd now), some (activityUpd now u)) := by
    simp only [findByIdAndUpdate]
    rw [hfind]
  simp [updateUserActivity, hpair, activityUpd]

/-- C3 counterexample: a successful self-call of the offline fallback emits
no broadcast at all — its broadcast log is empty even though the claim
requires a presence event to be broadcast to all connected clients. The
persisted flag does flip to offline. -/
theorem c3_counterexample :
    (setUserOffline "A" "A" dirA 7).2.2 = ([] : List StatusEvent) ∧
    (findUser (setUserOffline "A" "A" dirA 7).1 "A").map UserRec.isOnline
      = some false := by
  decide

/-- C3 (amended): `setUserOffline` on a self-call always persists
`{isOnline:false, lastActive:now}` — it takes no account of live
connections, which it never consults — and calling it twice in a row
yields the same persisted state and the same response; but it broadcasts
nothing: the controller has no access to the Socket.IO server. -/
theorem c3_forceOffline_persists_idempotent_no_broadcast
    (users : Directory) (uid : String) (now : Nat) (u : UserRec)
    (h : findUser users uid = some u) :
    (setUserOffline uid uid users now).2.2 = [] ∧
    findUser (setUserOffline uid uid users now).1 uid
      = some { u with isOnline := false, lastActive := now } ∧
    setUserOffline uid uid (setUserOffline uid uid users now).1 now
      = ((setUserOffline uid uid users now).1,
         (setUserOffline uid uid users now).2.1, []) := by
  have h1 := setUserOffline_found users uid now u h
  have hfind1 : findUser (setUserOffline uid uid users now).1 uid
      = some (offlineUpd now u) := by
    rw [h1, findUser_updateById users uid _ (offlineUpd_id now), h]
    rfl
  refine ⟨by rw [h1], hfind1, ?_⟩
  have h2 := setUserOffline_found (setUserOffline uid uid users now).1 uid now
      (offlineUpd now u) hfind1
  rw [h2, h1]
  have hcomp :
      updateById (updateById users uid (offlineUpd now)) uid (offlineUpd now)
        = updateById users uid (offlineUpd now) := by
    rw [updateById_updateById users uid _ _ (offlineUpd_id now)]
    congr 1
  rw [hcomp]
  rfl

/-- C3 witness: the amended statement at the concrete one-user directory. -/
theorem c3_forceOffline_witness :
    (setUserOffline "A" "A" dirA 9).2.2 = [] ∧
    findUser (setUserOffline "A" "A" dirA 9).1 "A"
      = some ⟨"A", "Alice", "a@x.io", "customer", "Basic", false, 9⟩ :=
  ⟨(c3_forceOffline_persists_idempotent_no_broadcast dirA "A" 9
      ⟨"A", "Alice", "a@x.io", "customer", "Basic", false, 0⟩ (by decide)).1,
   (c3_forceOffline_persists_idempotent_no_broadcast dirA "A" 9
      ⟨"A", "Alice", "a@x.io", "customer", "Basic", false, 0⟩ (by decide)).2.1⟩

/-- C4: the offline fallback returns `403` leaving the directory untouched
when the caller differs from the target, `404` leaving it untouched when
the target id is unknown, and on success echoes the persisted
`{userId, isOnline:false, lastActive}` (together with name, email and
role) back to the caller, the persisted record agreeing with the echo. -/
theorem c4_offline_route_contract :
    (∀ (users : Directory) (a t : String) (now : Nat), ¬ a = t →
      setUserOffline a t users now = (users, .forbidden, [])) ∧
    (∀ (users : Directory) (t : String) (now : Nat),
      findUser users t = none →
      setUserOffline t t users now = (users, .notFound, [])) ∧
    (∀ (users : Directory) (t : String) (now : Nat) (u : UserRec),
      findUser users t = some u →
      (setUserOffline t t users now).2.1
        = .ok t u.name u.email false now u.role ∧
      findUser (setUserOffline t t users now).1 t
        = some { u with isOnline := false, lastActive := now }) := by
  refine ⟨setUserOffline_forbidden, setUserOffline_not_found, ?_⟩
  intro users t now u h
  have hid : u.id = t := by simpa using List.find?_some h
  have h1 := setUserOffline_found users t now u h
  constructor
  · rw [h1, hid]
  · rw [h1, findUser_updateById users t _ (offlineUpd_id now), h]
    rfl

/-- C4 witness: all three branches at concrete inputs. -/
theorem c4_offline_route_contract_witness :
    setUserOffline "B" "A" dirA 5 = (dirA, .forbidden, []) ∧
    setUserOffline "Z" "Z" dirA 5 = (dirA, .notFound, []) ∧
    (setUserOffline "A" "A" dirA 5).2.1
      = .ok "A" "Alice" "a@x.io" false 5 "customer" :=
  ⟨c4_offline_route_contract.1 dirA "B" "A" 5 (by decide),
   c4_offline_route_contract.2.1 dirA "Z" 5 (by decide),
   (c4_offline_route_contract.2.2 dirA "A" 5
      ⟨"A", "Alice", "a@x.io", "customer", "Basic", false, 0⟩ (by decide)).1⟩

/-- A directory with two distinct users `A` and `B`. -/
def dirAB : Directory :=
  [⟨"A", "Alice", "a@x.io", "customer", "Basic", false, 0⟩,
   ⟨"B", "Bob", "b@x.io", "admin", "Basic", true, 0⟩]

/-- C10: the activity route performs no ownership check: any authenticated
caller `a ≠ b` naming `b` succeeds and refreshes `b`'s `lastActive`
(leaving `isOnline` as it was) — while the offline route rejects the same
caller/target pair with `403` — and the activity route fails only with
`404` when the id is unknown. -/
theorem c10_activity_route_no_ownership_check :
    (∀ (users : Directory) (a b : String) (now : Nat) (u : UserRec),
      ¬ a = b → (findUser users a).isSome → findUser users b = some u →
      (updateUserActivity a b users now).2
        = .ok b u.name u.email u.isOnline now u.role ∧
      findUser (updateUserActivity a b users now).1 b
        = some { u with lastActive := now } ∧
      (setUserOffline a b users now).2.1 = UserResp.forbidden) ∧
    (∀ (users : Directory) (a b : String) (now : Nat),
      findUser users b = none →
      updateUserActivity a b users now = (users, .notFound)) := by
  constructor
  · intro users a b now u hab _ha h
    have hid : u.id = b := by simpa using List.find?_some h
    have h1 := updateUserActivity_found users a b now u h
    refine ⟨by rw [h1, hid], ?_, ?_⟩
    · rw [h1, findUser_updateById users b _ (activityUpd_id now), h]
      rfl
    · rw [setUserOffline_forbidden users a b now hab]
  · intro users a b now h
    exact updateUserActivity_not_found users a b now h

/-- C10 witness: with distinct users `A` and `B`, `A`'s heartbeat request
for `B` succeeds and refreshes `B`, `A`'s offline request for `B` is
rejected, and an unknown id yields `404`. -/
theorem c10_activity_route_no_ownership_check_witness :
    (updateUserActivity "A" "B" dirAB 11).2
      = .ok "B" "Bob" "b@x.io" true 11 "admin" ∧
    (setUserOffline "A" "B" dirAB 11).2.1 = UserResp.forbidden ∧
    updateUserActivity "A" "Z" dirAB 11 = (dirAB, .notFound) :=
  ⟨(c10_activity_route_no_ownership_check.1 dirAB "A" "B" 11
      ⟨"B", "Bob", "b@x.io", "admin", "Basic", true, 0⟩
      (by decide) (by decide) (by decide)).1,
   (c10_activity_route_no_ownership_check.1 dirAB "A" "B" 11
      ⟨"B", "Bob", "b@x.io", "admin", "Basic", true, 0⟩
      (by decide) (by decide) (by decide)).2.2,
   c10_activity_route_no_ownership_check.2 dirAB "A" "Z" 11 (by decide)⟩
